import Mathlib

/-!
Verification of the request-authorization pipeline and the entity mutation
services of the employee/department management API.

The definitions below are a shallow embedding of the TypeScript sources:

* `OktaAuthGuard.canActivate` and `mkOktaAuthGuard` embed
  `src/auth/okta-auth.guard.ts`.  The Okta JWT verifier is an external
  collaborator and is passed in as a function `VerifyCall → Except String Claims`;
  the guard records the exact call it makes (token and expected audience) so
  that delegation can be reasoned about.
* `AdminGuard.canActivate` embeds `src/auth/admin.guard.ts`.
* `EmployeesService.create/findOne/update/remove` embed
  `src/employees/employees.service.ts`; the TypeORM repository is modelled as
  an `EmpStore` holding the rows together with logs of the insert, update and
  delete calls issued to it.
* `DepartmentsService.findOne` embeds `departments.service.ts`.

JavaScript particulars that matter are embedded explicitly:

* `authHeader.replace(pat, repl)` with a string pattern replaces only the
  first occurrence: `jsReplaceFirst`.
* `!x` is true for `undefined`, `null` and `""`: headers are `Option String`
  and the guard also treats `some ""` as absent.
* `x || y` for a possibly missing field is `Option.getD`.
* `new Date(s)` versus an unparsed string assigned by `Object.assign` are
  kept apart by the `DateVal` type.
-/

/-- Characters `pat` are an initial segment of `s`. -/
def leadsWith : List Char → List Char → Bool
  | [], _ => true
  | _ :: _, [] => false
  | a :: pa, b :: pb => a == b && leadsWith pa pb

/-- Replace the first occurrence of `pat` by `repl`, on character lists.
Embeds the behaviour of JavaScript `String.prototype.replace` with a
non-empty string pattern. -/
def replaceFirstChars (pat repl : List Char) : List Char → List Char
  | [] => []
  | c :: rest =>
    if leadsWith pat (c :: rest) then repl ++ (c :: rest).drop pat.length
    else c :: replaceFirstChars pat repl rest

/-- JavaScript `s.replace(pat, repl)` for a string pattern: first occurrence
only. -/
def jsReplaceFirst (s pat repl : String) : String :=
  String.mk (replaceFirstChars pat.data repl.data s.data)

/-- `pat` occurs as a contiguous substring of `s` (character lists). -/
def hasSubstrChars (pat : List Char) : List Char → Bool
  | [] => leadsWith pat []
  | c :: rest => leadsWith pat (c :: rest) || hasSubstrChars pat rest

/-- `pat` occurs as a contiguous substring of `s`. -/
def hasSubstr (s pat : String) : Bool :=
  hasSubstrChars pat.data s.data

/-- Guard failures, tagged by the HTTP-level meaning.  `unauthenticated`
embeds `UnauthorizedException`, `forbidden` embeds `ForbiddenException`. -/
inductive GuardError where
  | unauthenticated (msg : String)
  | forbidden (msg : String)
deriving DecidableEq

/-- Claims returned by the Okta verifier on success (`jwt.claims`): the
fields the guard reads.  `groups` may be absent. -/
structure Claims where
  sub : String
  email : String
  groups : Option (List String)
deriving DecidableEq

/-- The principal attached to the request (`request.user`). -/
structure Principal where
  sub : String
  email : String
  groups : List String
deriving DecidableEq

/-- One call to `oktaVerifier.verifyAccessToken(token, expectedAudience)`. -/
structure VerifyCall where
  token : String
  expectedAudience : String
deriving DecidableEq

/-- Everything observable about one `OktaAuthGuard.canActivate` run: the
returned/thrown outcome, the principal attached to the request, and the
verifier call issued (if any). -/
structure CanActivateOut where
  outcome : Except GuardError Bool
  user : Option Principal
  verifyCall : Option VerifyCall

/-- Configuration baked into the Okta verifier at construction time:
`new OktaJwtVerifier({issuer, clientId, assertClaims: {aud}})`. -/
structure OktaVerifierConfig where
  issuer : String
  clientId : String
  assertAud : String
deriving DecidableEq

/-- Embeds the `OktaAuthGuard` constructor.  `get k` is
`configService.get(k)`; a missing or empty value is falsy in JS, hence the
`getD ""` test.  `OKTA_AUDIENCE` defaults to `api://default`. -/
def mkOktaAuthGuard (get : String → Option String) :
    Except String OktaVerifierConfig :=
  let issuer := (get "OKTA_ISSUER").getD ""
  let clientId := (get "OKTA_CLIENT_ID").getD ""
  if issuer = "" ∨ clientId = "" then
    .error "Okta configuration is missing. Please set OKTA_ISSUER and OKTA_CLIENT_ID in .env file"
  else
    .ok ⟨issuer, clientId, (get "OKTA_AUDIENCE").getD "api://default"⟩

/-- Embeds `OktaAuthGuard.canActivate`.  The request supplies
`headers.authorization` as an `Option String`; `verify` is the external
verifier.  Faithful to the source: the token is the header with the first
occurrence of the exact-case string `Bearer ` removed, and the expected
audience handed to `verifyAccessToken` is the literal `api://default`. -/
def OktaAuthGuard.canActivate (verify : VerifyCall → Except String Claims)
    (authHeader : Option String) : CanActivateOut :=
  if authHeader.getD "" = "" then
    ⟨.error (.unauthenticated "No authorization header found"), none, none⟩
  else
    let h := authHeader.getD ""
    let token := jsReplaceFirst h "Bearer " ""
    let call : VerifyCall := ⟨token, "api://default"⟩
    match verify call with
    | .ok jwt =>
        ⟨.ok true, some ⟨jwt.sub, jwt.email, jwt.groups.getD []⟩, some call⟩
    | .error msg =>
        ⟨.error (.unauthenticated ("Token verification failed: " ++ msg)),
         none, some call⟩

/-- The shape `AdminGuard` reads from `request.user`; `groups` may be
absent/falsy. -/
structure AdminUser where
  groups : Option (List String)
deriving DecidableEq

/-- Embeds `AdminGuard.canActivate`: missing user → Forbidden; otherwise
`groups := user.groups || []` and membership of the exact string `admin`
decides. -/
def AdminGuard.canActivate (user : Option AdminUser) : Except GuardError Bool :=
  match user with
  | none =>
      .error (.forbidden
        "User information not found. Please ensure authentication guard runs first.")
  | some u =>
      let groups := u.groups.getD []
      if groups.contains "admin" then .ok true
      else .error (.forbidden "Access denied. Admin role required.")

/-- The spec's well-formedness pattern for an authorization header: a
case-insensitive `Bearer ` scheme followed by at least one non-whitespace
character.  (Spec language only; the source performs no such check.) -/
def matchesBearerPattern (h : String) : Bool :=
  leadsWith "bearer ".data (h.data.map Char.toLower) &&
  (h.data.drop 7).any (fun c => !c.isWhitespace)

/-- Domain-level failures raised by the mutation services:
`ConflictException` and `NotFoundException`. -/
inductive DomainError where
  | conflict
  | notFound
deriving DecidableEq

/-- A date-typed field value.  `parsed s` is the result of JavaScript
`new Date(s)` in `EmployeesService.create`; `raw s` is a date string copied
verbatim onto the record by `Object.assign` in `update`, which performs no
parsing. -/
inductive DateVal where
  | parsed (s : String)
  | raw (s : String)
deriving DecidableEq

/-- The `Employee` entity.  `id` is generated by the store, hence optional
on records the service constructs itself. -/
structure Employee where
  id : Option Nat := none
  name : String
  email : String
  salary : Int
  dateOfBirth : DateVal
  mobileNumber : Int
  departmentId : Nat
deriving DecidableEq

/-- `CreateEmployeeDto`: the validated create payload; `dateOfBirth` is a
date string. -/
structure CreateEmployeeDto where
  name : String
  email : String
  salary : Int
  dateOfBirth : String
  mobileNumber : Int
  departmentId : Nat
deriving DecidableEq

/-- `UpdateEmployeeDto = PartialType(CreateEmployeeDto)`: every field
optional; an absent field is not an own property, so `Object.assign` leaves
the target field alone. -/
structure UpdateEmployeeDto where
  name : Option String := none
  email : Option String := none
  salary : Option Int := none
  dateOfBirth : Option String := none
  mobileNumber : Option Int := none
  departmentId : Option Nat := none
deriving DecidableEq

/-- The employee repository as seen through the service: the rows consulted
by `findOneBy`, plus logs of every `insert`, `update({id}, rec)` and
`delete(id)` call issued. -/
structure EmpStore where
  rows : List Employee
  inserted : List Employee := []
  updated : List (Nat × Employee) := []
  deleted : List Nat := []
deriving DecidableEq

/-- `empRepo.findOneBy({email})`. -/
def EmployeesService.findOneByEmail (rows : List Employee) (email : String) :
    Option Employee :=
  rows.find? (fun r => r.email == email)

/-- `empRepo.findOneBy({id})`. -/
def EmployeesService.findOneById (rows : List Employee) (id : Nat) :
    Option Employee :=
  rows.find? (fun r => r.id == some id)

/-- Embeds `EmployeesService.create`: duplicate-email check via
`findOneBy({email})`, then construction of the new record (with
`dateOfBirth: new Date(dto.dateOfBirth)`) and `insert`. -/
def EmployeesService.create (dto : CreateEmployeeDto) (s : EmpStore) :
    Except DomainError Employee × EmpStore :=
  match EmployeesService.findOneByEmail s.rows dto.email with
  | some _ => (.error .conflict, s)
  | none =>
      let emp : Employee :=
        { name := dto.name
          dateOfBirth := .parsed dto.dateOfBirth
          email := dto.email
          mobileNumber := dto.mobileNumber
          salary := dto.salary
          departmentId := dto.departmentId }
      (.ok emp,
       { s with rows := s.rows ++ [emp], inserted := s.inserted ++ [emp] })

/-- Embeds `EmployeesService.findOne`: `findOneBy({id})`, then return the
record or throw `NotFoundException`. -/
def EmployeesService.findOne (id : Nat) (s : EmpStore) :
    Except DomainError Employee :=
  match EmployeesService.findOneById s.rows id with
  | some emp => .ok emp
  | none => .error .notFound

/-- `Object.assign(emp, dto)`: copy every field the payload supplies onto
the existing record; fields the payload omits are untouched, and the
payload has no `id` field.  A supplied `dateOfBirth` is the raw string,
not a parsed date. -/
def EmployeesService.objectAssign (emp : Employee) (dto : UpdateEmployeeDto) :
    Employee :=
  { emp with
    name := dto.name.getD emp.name
    email := dto.email.getD emp.email
    salary := dto.salary.getD emp.salary
    dateOfBirth :=
      match dto.dateOfBirth with
      | some s => .raw s
      | none => emp.dateOfBirth
    mobileNumber := dto.mobileNumber.getD emp.mobileNumber
    departmentId := dto.departmentId.getD emp.departmentId }

/-- Embeds `EmployeesService.update`: load by id (NotFound if absent),
`Object.assign` the payload onto the record, persist via
`empRepo.update({id}, emp)`, and return the merged in-memory record. -/
def EmployeesService.update (id : Nat) (dto : UpdateEmployeeDto)
    (s : EmpStore) : Except DomainError Employee × EmpStore :=
  match EmployeesService.findOneById s.rows id with
  | none => (.error .notFound, s)
  | some emp =>
      let merged := EmployeesService.objectAssign emp dto
      (.ok merged,
       { s with
         rows := s.rows.map (fun r => if r.id == some id then merged else r)
         updated := s.updated ++ [(id, merged)] })

/-- Embeds `EmployeesService.remove`: load by id (NotFound if absent), then
`empRepo.delete(id)`. -/
def EmployeesService.remove (id : Nat) (s : EmpStore) :
    Except DomainError Unit × EmpStore :=
  match EmployeesService.findOneById s.rows id with
  | none => (.error .notFound, s)
  | some _ =>
      (.ok (),
       { s with
         rows := s.rows.filter (fun r => !(r.id == some id))
         deleted := s.deleted ++ [id] })

/-- The `Department` entity. -/
structure Department where
  id : Option Nat := none
  name : String
deriving DecidableEq

/-- Embeds `DepartmentsService.findOne`: it returns
`deptRepo.findOneBy({id})` directly — there is no existence check and no
`NotFoundException`; a missing id yields `null` (`none`). -/
def DepartmentsService.findOne (id : Nat) (rows : List Department) :
    Option Department :=
  rows.find? (fun d => d.id == some id)

/-- A verifier that rejects every token. -/
def rejectAllVerifier : VerifyCall → Except String Claims :=
  fun _ => .error "invalid"

/-- A verifier that accepts exactly the token `t`, answering `c`. -/
def verifierAccepting (t : String) (c : Claims) :
    VerifyCall → Except String Claims :=
  fun call => if call.token = t then .ok c else .error "invalid"

/-- Sample claims with no `groups` field. -/
def sampleClaims : Claims :=
  { sub := "sub-1", email := "user@example.com", groups := none }

/-- A configuration whose `OKTA_AUDIENCE` is not the default value. -/
def customAudienceConfig : String → Option String := fun k =>
  if k = "OKTA_ISSUER" then some "https://issuer.example/oauth2/default"
  else if k = "OKTA_CLIENT_ID" then some "client-1"
  else if k = "OKTA_AUDIENCE" then some "api://custom"
  else none

/-- An employee row used in concrete instantiations. -/
def sampleEmployee : Employee :=
  { id := some 1
    name := "Ravi"
    email := "ravi@test.com"
    salary := 50000
    dateOfBirth := .parsed "1990-01-01"
    mobileNumber := 1234567890
    departmentId := 1 }

/-- A store holding exactly `sampleEmployee`, with empty call logs. -/
def sampleStore : EmpStore :=
  { rows := [sampleEmployee] }

/-- The empty employee store. -/
def emptyStore : EmpStore :=
  { rows := [] }

/-- A create payload with the same email as `sampleEmployee`. -/
def sampleCreateDto : CreateEmployeeDto :=
  { name := "New Employee"
    email := "ravi@test.com"
    salary := 55000
    dateOfBirth := "1995-05-05"
    mobileNumber := 5555555555
    departmentId := 1 }

/-- A partial update payload supplying only `name` and `salary`. -/
def sampleUpdateDto : UpdateEmployeeDto :=
  { name := some "Updated Name", salary := some 65000 }

/-- If `pat` is an initial segment, `leadsWith` says so. -/
theorem leadsWith_append (pat t : List Char) :
    leadsWith pat (pat ++ t) = true := by
  induction pat with
  | nil => rfl
  | cons a pa ih => simp [leadsWith, ih]

/-- Replacing the first occurrence at the very front. -/
theorem replaceFirstChars_append (pat repl t : List Char) (hne : pat ≠ []) :
    replaceFirstChars pat repl (pat ++ t) = repl ++ t := by
  cases pat with
  | nil => exact absurd rfl hne
  | cons a pa =>
      show replaceFirstChars (a :: pa) repl ((a :: pa) ++ t) = repl ++ t
      rw [List.cons_append, replaceFirstChars]
      rw [← List.cons_append, leadsWith_append]
      simp [List.drop_left]

/-- When `pat` does not occur in `s`, replacement leaves `s` alone. -/
theorem replaceFirstChars_of_no_occurrence (pat repl s : List Char)
    (h : hasSubstrChars pat s = false) :
    replaceFirstChars pat repl s = s := by
  induction s with
  | nil => rfl
  | cons c rest ih =>
      rw [hasSubstrChars, Bool.or_eq_false_iff] at h
      rw [replaceFirstChars, if_neg (by simp [h.1]), ih h.2]

/-- Stripping the scheme from an exact-case `Bearer <token>` header yields
the token. -/
theorem jsReplaceFirst_bearer (t : String) :
    jsReplaceFirst ("Bearer " ++ t) "Bearer " "" = t := by
  show String.mk (replaceFirstChars "Bearer ".data [] ("Bearer " ++ t).data) = t
  rw [String.data_append, replaceFirstChars_append _ _ _ (by decide)]
  rfl

/-- A header that does not contain `Bearer ` is passed through unchanged. -/
theorem jsReplaceFirst_of_no_substr (h : String)
    (hno : hasSubstr h "Bearer " = false) :
    jsReplaceFirst h "Bearer " "" = h := by
  show String.mk (replaceFirstChars "Bearer ".data [] h.data) = h
  rw [replaceFirstChars_of_no_occurrence _ _ _ hno]

/-- `find?` misses exactly when no row satisfies the predicate; here for
employee-id lookup. -/
theorem findOneById_eq_none (rows : List Employee) (id : Nat)
    (hnone : ∀ e ∈ rows, ¬ e.id = some id) :
    EmployeesService.findOneById rows id = none := by
  apply List.find?_eq_none.mpr
  intro e he
  simpa using hnone e he

/-- A row with the sought email makes the email lookup succeed. -/
theorem findOneByEmail_isSome (rows : List Employee) (email : String)
    (e : Employee) (he : e ∈ rows) (heq : e.email = email) :
    (EmployeesService.findOneByEmail rows email).isSome := by
  apply List.find?_isSome.mpr
  exact ⟨e, he, by simp [heq]⟩

/-- No row with the sought email: the email lookup misses. -/
theorem findOneByEmail_eq_none (rows : List Employee) (email : String)
    (hfresh : ∀ e ∈ rows, ¬ e.email = email) :
    EmployeesService.findOneByEmail rows email = none := by
  apply List.find?_eq_none.mpr
  intro e he
  simpa using hfresh e he

/-- On a present, non-empty header the guard always strips the first
`Bearer ` occurrence and consults the verifier with audience
`api://default`. -/
theorem OktaAuthGuard.canActivate_some_eq
    (verify : VerifyCall → Except String Claims) (h : String) (hne : h ≠ "") :
    OktaAuthGuard.canActivate verify (some h) =
      match verify ⟨jsReplaceFirst h "Bearer " "", "api://default"⟩ with
      | .ok jwt =>
          ⟨.ok true, some ⟨jwt.sub, jwt.email, jwt.groups.getD []⟩,
           some ⟨jsReplaceFirst h "Bearer " "", "api://default"⟩⟩
      | .error msg =>
          ⟨.error (.unauthenticated ("Token verification failed: " ++ msg)),
           none, some ⟨jsReplaceFirst h "Bearer " "", "api://default"⟩⟩ := by
  unfold OktaAuthGuard.canActivate
  rw [if_neg (by simpa using hne)]
  rfl

/-- C2: `AdminGuard.canActivate` allows a request if and only if a user is
attached whose groups contain the exact string `admin`; in every other case
it fails with `Forbidden` (never with `Unauthenticated`). -/
theorem adminGuard_allow_iff_admin_group (user : Option AdminUser) :
    (AdminGuard.canActivate user = .ok true ↔
      ∃ u, user = some u ∧ "admin" ∈ u.groups.getD []) ∧
    ((¬ ∃ u, user = some u ∧ "admin" ∈ u.groups.getD []) →
      ∃ m, AdminGuard.canActivate user = .error (.forbidden m)) := by
  constructor
  · constructor
    · intro hok
      cases user with
      | none => simp [AdminGuard.canActivate] at hok
      | some u =>
          simp [AdminGuard.canActivate] at hok
          exact ⟨u, rfl, hok⟩
    · rintro ⟨u, rfl, hm⟩
      simp [AdminGuard.canActivate]
      exact hm
  · intro hno
    cases user with
    | none => exact ⟨_, rfl⟩
    | some u =>
        have hmem : ¬ "admin" ∈ u.groups.getD [] := fun hm => hno ⟨u, rfl, hm⟩
        refine ⟨"Access denied. Admin role required.", ?_⟩
        simp [AdminGuard.canActivate, hmem]

/-- Witness for C2 at concrete inputs: `admin` anywhere in the groups is
allowed; `Admin` alone is Forbidden. -/
theorem adminGuard_allow_iff_admin_group_witness :
    AdminGuard.canActivate (some ⟨some ["users", "admin", "editors"]⟩) = .ok true ∧
    ∃ m, AdminGuard.canActivate (some ⟨some ["Admin"]⟩) = .error (.forbidden m) := by
  constructor
  · exact (adminGuard_allow_iff_admin_group
      (some ⟨some ["users", "admin", "editors"]⟩)).1.mpr
      ⟨_, rfl, by decide⟩
  · exact (adminGuard_allow_iff_admin_group (some ⟨some ["Admin"]⟩)).2
      (by rintro ⟨u, hu, hm⟩; cases hu; revert hm; decide)

/-- C4 counterexample: on an id with no Department record,
`DepartmentsService.findOne` returns `none` (the raw `findOneBy` result) and
does not fail with `NotFound`, unlike `EmployeesService.findOne` on the same
missing id. -/
theorem departments_findOne_missing_counterexample :
    DepartmentsService.findOne 999 [] = none ∧
    EmployeesService.findOne 999 emptyStore = .error .notFound := by
  exact ⟨rfl, rfl⟩

/-- C4 (amended): for every id with no Department record in the store,
`DepartmentsService.findOne` returns `none` — it never raises `NotFound`. -/
theorem departments_findOne_missing_returns_none (rows : List Department)
    (id : Nat) (hnone : ∀ d ∈ rows, ¬ d.id = some id) :
    DepartmentsService.findOne id rows = none := by
  apply List.find?_eq_none.mpr
  intro d hd
  simpa using hnone d hd

/-- Witness for the amended C4 at a concrete store. -/
theorem departments_findOne_missing_returns_none_witness :
    (∀ d ∈ [({ id := some 1, name := "HR" } : Department)], ¬ d.id = some 2) ∧
    DepartmentsService.findOne 2 [{ id := some 1, name := "HR" }] = none :=
  ⟨by decide,
   departments_findOne_missing_returns_none [{ id := some 1, name := "HR" }] 2
     (by decide)⟩

/-- C5: a create payload whose email is already present in the store fails
with `Conflict` and leaves the store (rows and all call logs) unchanged, so
no insert is issued. -/
theorem employees_create_duplicate_conflict (s : EmpStore)
    (dto : CreateEmployeeDto) (e : Employee) (he : e ∈ s.rows)
    (heq : e.email = dto.email) :
    EmployeesService.create dto s = (.error .conflict, s) := by
  obtain ⟨a, ha⟩ := Option.isSome_iff_exists.mp
    (findOneByEmail_isSome s.rows dto.email e he heq)
  simp [EmployeesService.create, ha]

/-- Witness for C5: creating with the sample employee's email conflicts and
leaves the store untouched. -/
theorem employees_create_duplicate_conflict_witness :
    sampleEmployee ∈ sampleStore.rows ∧
    sampleEmployee.email = sampleCreateDto.email ∧
    EmployeesService.create sampleCreateDto sampleStore =
      (.error .conflict, sampleStore) :=
  ⟨by decide, by decide,
   employees_create_duplicate_conflict sampleStore sampleCreateDto
     sampleEmployee (by decide) (by decide)⟩

/-- C6: on an id with no Employee record, `findOne`, `update` and `remove`
all fail with `NotFound` and the store (rows and the update/delete call
logs) is unchanged, so no write or delete is issued. -/
theorem employees_missing_id_notFound (s : EmpStore) (id : Nat)
    (dto : UpdateEmployeeDto) (hnone : ∀ e ∈ s.rows, ¬ e.id = some id) :
    EmployeesService.findOne id s = .error .notFound ∧
    EmployeesService.update id dto s = (.error .notFound, s) ∧
    EmployeesService.remove id s = (.error .notFound, s) := by
  have h := findOneById_eq_none s.rows id hnone
  refine ⟨?_, ?_, ?_⟩ <;>
    simp [EmployeesService.findOne, EmployeesService.update,
      EmployeesService.remove, h]

/-- Witness for C6 at id 999 against the sample store. -/
theorem employees_missing_id_notFound_witness :
    (∀ e ∈ sampleStore.rows, ¬ e.id = some 999) ∧
    EmployeesService.findOne 999 sampleStore = .error .notFound ∧
    EmployeesService.update 999 sampleUpdateDto sampleStore =
      (.error .notFound, sampleStore) ∧
    EmployeesService.remove 999 sampleStore = (.error .notFound, sampleStore) :=
  ⟨by decide,
   employees_missing_id_notFound sampleStore 999 sampleUpdateDto (by decide)⟩

/-- C7: updating an existing employee returns the `Object.assign` merge of
the payload onto the stored record — fields the payload omits keep their
old values, fields it supplies take the payload's values, the id is
untouched — and exactly this merged record is handed to the store's update,
keyed by the id. -/
theorem employees_update_partial_merge (s : EmpStore) (id : Nat)
    (dto : UpdateEmployeeDto) (emp : Employee)
    (hfind : EmployeesService.findOneById s.rows id = some emp) :
    (EmployeesService.update id dto s).1 =
      .ok (EmployeesService.objectAssign emp dto) ∧
    (EmployeesService.update id dto s).2.updated =
      s.updated ++ [(id, EmployeesService.objectAssign emp dto)] ∧
    (EmployeesService.objectAssign emp dto).id = emp.id ∧
    (dto.name = none → (EmployeesService.objectAssign emp dto).name = emp.name) ∧
    (∀ v, dto.name = some v → (EmployeesService.objectAssign emp dto).name = v) ∧
    (dto.email = none →
      (EmployeesService.objectAssign emp dto).email = emp.email) ∧
    (∀ v, dto.email = some v →
      (EmployeesService.objectAssign emp dto).email = v) ∧
    (dto.salary = none →
      (EmployeesService.objectAssign emp dto).salary = emp.salary) ∧
    (∀ v, dto.salary = some v →
      (EmployeesService.objectAssign emp dto).salary = v) ∧
    (dto.dateOfBirth = none →
      (EmployeesService.objectAssign emp dto).dateOfBirth = emp.dateOfBirth) ∧
    (∀ v, dto.dateOfBirth = some v →
      (EmployeesService.objectAssign emp dto).dateOfBirth = .raw v) ∧
    (dto.mobileNumber = none →
      (EmployeesService.objectAssign emp dto).mobileNumber = emp.mobileNumber) ∧
    (∀ v, dto.mobileNumber = some v →
      (EmployeesService.objectAssign emp dto).mobileNumber = v) ∧
    (dto.departmentId = none →
      (EmployeesService.objectAssign emp dto).departmentId = emp.departmentId) ∧
    (∀ v, dto.departmentId = some v →
      (EmployeesService.objectAssign emp dto).departmentId = v) := by
  refine ⟨by simp [EmployeesService.update, hfind],
    by simp [EmployeesService.update, hfind], rfl,
    ?_, ?_, ?_, ?_, ?_, ?_, ?_, ?_, ?_, ?_, ?_, ?_⟩ <;>
    first
      | (intro hN; simp [EmployeesService.objectAssign, hN])
      | (intro v hV; simp [EmployeesService.objectAssign, hV])

/-- Witness for C7: a payload supplying only name and salary updates those
two fields, keeps email and dateOfBirth, and sends the merged record to the
store update keyed by id 1. -/
theorem employees_update_partial_merge_witness :
    EmployeesService.findOneById sampleStore.rows 1 = some sampleEmployee ∧
    (EmployeesService.update 1 sampleUpdateDto sampleStore).1 =
      .ok (EmployeesService.objectAssign sampleEmployee sampleUpdateDto) ∧
    (EmployeesService.update 1 sampleUpdateDto sampleStore).2.updated =
      [(1, EmployeesService.objectAssign sampleEmployee sampleUpdateDto)] ∧
    EmployeesService.objectAssign sampleEmployee sampleUpdateDto =
      { id := some 1
        name := "Updated Name"
        email := "ravi@test.com"
        salary := 65000
        dateOfBirth := .parsed "1990-01-01"
        mobileNumber := 1234567890
        departmentId := 1 } :=
  ⟨by decide,
   (employees_update_partial_merge sampleStore 1 sampleUpdateDto sampleEmployee
     (by decide)).1,
   by simpa using (employees_update_partial_merge sampleStore 1 sampleUpdateDto
     sampleEmployee (by decide)).2.1,
   by decide⟩

/-- C9: a create payload with a fresh email is inserted into the store, and
the record returned (and inserted) carries the payload's name, email and
salary, with `dateOfBirth` the parse of the payload's date string. -/
theorem employees_create_fresh_inserts (s : EmpStore) (dto : CreateEmployeeDto)
    (hfresh : ∀ e ∈ s.rows, ¬ e.email = dto.email) :
    ∃ emp, EmployeesService.create dto s =
        (.ok emp,
         { s with rows := s.rows ++ [emp], inserted := s.inserted ++ [emp] }) ∧
      emp.name = dto.name ∧ emp.email = dto.email ∧ emp.salary = dto.salary ∧
      emp.dateOfBirth = .parsed dto.dateOfBirth := by
  have h := findOneByEmail_eq_none s.rows dto.email hfresh
  refine ⟨{ name := dto.name
            dateOfBirth := .parsed dto.dateOfBirth
            email := dto.email
            mobileNumber := dto.mobileNumber
            salary := dto.salary
            departmentId := dto.departmentId }, ?_, rfl, rfl, rfl, rfl⟩
  simp [EmployeesService.create, h]

/-- Witness for C9: creating into the empty store inserts and echoes the
payload's fields. -/
theorem employees_create_fresh_inserts_witness :
    (∀ e ∈ emptyStore.rows, ¬ e.email = sampleCreateDto.email) ∧
    ∃ emp, EmployeesService.create sampleCreateDto emptyStore =
        (.ok emp,
         { emptyStore with
           rows := emptyStore.rows ++ [emp]
           inserted := emptyStore.inserted ++ [emp] }) ∧
      emp.name = sampleCreateDto.name ∧ emp.email = sampleCreateDto.email ∧
      emp.salary = sampleCreateDto.salary ∧
      emp.dateOfBirth = .parsed sampleCreateDto.dateOfBirth :=
  ⟨by decide,
   employees_create_fresh_inserts emptyStore sampleCreateDto (by decide)⟩

/-- C1 counterexample: the header `invalid-token-format` does not match the
Bearer pattern, yet with a verifier that accepts the string
`invalid-token-format` the guard succeeds — the guard performs no format
check of its own, so the outcome is not independent of the verifier. -/
theorem okta_malformed_header_counterexample :
    matchesBearerPattern "invalid-token-format" = false ∧
    (OktaAuthGuard.canActivate
        (verifierAccepting "invalid-token-format" sampleClaims)
        (some "invalid-token-format")).outcome = .ok true := by
  exact ⟨by decide, rfl⟩

/-- C1 (amended): a present header that does not match the Bearer pattern
fails with `Unauthenticated` provided the verifier rejects the stripped
token (the header with the first `Bearer ` occurrence removed); the guard
itself performs no format check. -/
theorem okta_malformed_header_rejected
    (verify : VerifyCall → Except String Claims) (h : String) (hne : h ≠ "")
    (_hpat : matchesBearerPattern h = false)
    (hrej : ∀ c : Claims,
      verify ⟨jsReplaceFirst h "Bearer " "", "api://default"⟩ ≠ .ok c) :
    ∃ m, (OktaAuthGuard.canActivate verify (some h)).outcome =
      .error (.unauthenticated m) := by
  rw [OktaAuthGuard.canActivate_some_eq verify h hne]
  cases hv : verify ⟨jsReplaceFirst h "Bearer " "", "api://default"⟩ with
  | ok c => exact absurd hv (hrej c)
  | error m => exact ⟨"Token verification failed: " ++ m, rfl⟩

/-- Witness for the amended C1: `invalid-token-format` with a verifier that
rejects everything fails with `Unauthenticated`. -/
theorem okta_malformed_header_rejected_witness :
    ("invalid-token-format" : String) ≠ "" ∧
    matchesBearerPattern "invalid-token-format" = false ∧
    ∃ m, (OktaAuthGuard.canActivate rejectAllVerifier
        (some "invalid-token-format")).outcome = .error (.unauthenticated m) :=
  ⟨by decide, by decide,
   okta_malformed_header_rejected rejectAllVerifier "invalid-token-format"
     (by decide) (by decide)
     (by intro c hc; simp [rejectAllVerifier] at hc)⟩

/-- C3 counterexample: with `OKTA_AUDIENCE` configured as `api://custom` the
guard is constructed with that assert-claims audience, yet the expected
audience actually passed to `verifyAccessToken` is the literal
`api://default`. -/
theorem okta_audience_counterexample :
    mkOktaAuthGuard customAudienceConfig =
      .ok { issuer := "https://issuer.example/oauth2/default"
            clientId := "client-1"
            assertAud := "api://custom" } ∧
    (OktaAuthGuard.canActivate rejectAllVerifier
        (some "Bearer tok")).verifyCall = some ⟨"tok", "api://default"⟩ ∧
    ("api://default" : String) ≠ "api://custom" := by
  exact ⟨rfl, rfl, by decide⟩

/-- C3 (amended): construction fixes issuer, client id and the
assert-claims audience from configuration (audience defaulting to
`api://default`), but the expected audience passed at verification is
always the literal `api://default`, whatever `OKTA_AUDIENCE` holds. -/
theorem okta_construction_config_audience
    (get : String → Option String) (cfg : OktaVerifierConfig)
    (hok : mkOktaAuthGuard get = .ok cfg)
    (verify : VerifyCall → Except String Claims) (h : String) (hne : h ≠ "") :
    cfg.issuer = (get "OKTA_ISSUER").getD "" ∧
    cfg.clientId = (get "OKTA_CLIENT_ID").getD "" ∧
    cfg.assertAud = (get "OKTA_AUDIENCE").getD "api://default" ∧
    (OktaAuthGuard.canActivate verify (some h)).verifyCall =
      some ⟨jsReplaceFirst h "Bearer " "", "api://default"⟩ := by
  have hcfg : cfg =
      { issuer := (get "OKTA_ISSUER").getD ""
        clientId := (get "OKTA_CLIENT_ID").getD ""
        assertAud := (get "OKTA_AUDIENCE").getD "api://default" } := by
    simp only [mkOktaAuthGuard] at hok
    split at hok
    · simp at hok
    · cases hok
      rfl
  refine ⟨by rw [hcfg], by rw [hcfg], by rw [hcfg], ?_⟩
  rw [OktaAuthGuard.canActivate_some_eq verify h hne]
  cases verify ⟨jsReplaceFirst h "Bearer " "", "api://default"⟩ <;> rfl

/-- Witness for the amended C3 at the custom-audience configuration. -/
theorem okta_construction_config_audience_witness :
    mkOktaAuthGuard customAudienceConfig =
      .ok { issuer := "https://issuer.example/oauth2/default"
            clientId := "client-1"
            assertAud := "api://custom" } ∧
    ("https://issuer.example/oauth2/default" : String) =
      (customAudienceConfig "OKTA_ISSUER").getD "" ∧
    ("client-1" : String) = (customAudienceConfig "OKTA_CLIENT_ID").getD "" ∧
    ("api://custom" : String) =
      (customAudienceConfig "OKTA_AUDIENCE").getD "api://default" ∧
    (OktaAuthGuard.canActivate rejectAllVerifier
        (some "Bearer tok")).verifyCall =
      some ⟨jsReplaceFirst "Bearer tok" "Bearer " "", "api://default"⟩ :=
  have hmain := okta_construction_config_audience customAudienceConfig
    { issuer := "https://issuer.example/oauth2/default"
      clientId := "client-1"
      assertAud := "api://custom" } rfl rejectAllVerifier "Bearer tok"
    (by decide)
  ⟨rfl, hmain.1, hmain.2.1, hmain.2.2.1, hmain.2.2.2⟩

/-- C8 (code bug): the scheme handling is not case-insensitive.  With a
verifier accepting exactly the token `goodtoken`, the exact-case header
`Bearer goodtoken` authenticates, but the lowercase header
`bearer goodtoken` is passed to the verifier whole (the replace only strips
the exact-case `Bearer `) and authentication fails — against the guard's
own test, which expects a lowercase scheme to succeed. -/
theorem okta_lowercase_scheme_code_bug :
    (OktaAuthGuard.canActivate (verifierAccepting "goodtoken" sampleClaims)
        (some ("Bearer " ++ "goodtoken"))).outcome = .ok true ∧
    (OktaAuthGuard.canActivate (verifierAccepting "goodtoken" sampleClaims)
        (some "bearer goodtoken")).outcome =
      .error (.unauthenticated "Token verification failed: invalid") ∧
    (OktaAuthGuard.canActivate (verifierAccepting "goodtoken" sampleClaims)
        (some "bearer goodtoken")).verifyCall =
      some ⟨"bearer goodtoken", "api://default"⟩ := by
  exact ⟨rfl, rfl, rfl⟩

/-- C10: a non-empty header not containing the substring `Bearer ` is
handed to the verifier verbatim, and authentication succeeds whenever the
verifier accepts that string — no scheme prefix is required. -/
theorem okta_no_scheme_passthrough
    (verify : VerifyCall → Except String Claims) (h : String) (c : Claims)
    (hne : h ≠ "") (hno : hasSubstr h "Bearer " = false)
    (hacc : verify ⟨h, "api://default"⟩ = .ok c) :
    (OktaAuthGuard.canActivate verify (some h)).outcome = .ok true ∧
    (OktaAuthGuard.canActivate verify (some h)).verifyCall =
      some ⟨h, "api://default"⟩ := by
  have hid := jsReplaceFirst_of_no_substr h hno
  rw [OktaAuthGuard.canActivate_some_eq verify h hne, hid, hacc]
  exact ⟨rfl, rfl⟩

/-- Witness for C10: the bare token `mytoken` (no scheme) authenticates
when the verifier accepts it. -/
theorem okta_no_scheme_passthrough_witness :
    ("mytoken" : String) ≠ "" ∧
    hasSubstr "mytoken" "Bearer " = false ∧
    (OktaAuthGuard.canActivate (verifierAccepting "mytoken" sampleClaims)
        (some "mytoken")).outcome = .ok true ∧
    (OktaAuthGuard.canActivate (verifierAccepting "mytoken" sampleClaims)
        (some "mytoken")).verifyCall = some ⟨"mytoken", "api://default"⟩ :=
  ⟨by decide, by decide,
   (okta_no_scheme_passthrough (verifierAccepting "mytoken" sampleClaims)
     "mytoken" sampleClaims (by decide) (by decide)
     (by simp [verifierAccepting])).1,
   (okta_no_scheme_passthrough (verifierAccepting "mytoken" sampleClaims)
     "mytoken" sampleClaims (by decide) (by decide)
     (by simp [verifierAccepting])).2⟩
